import Mathlib

/-!
Verification of the infinite-scroll (keyset) pagination and query-validation
engine of the mentorhub member API, together with the Path domain service and
route layer that consume it.

The Path service (`src/services/path_service.py`) and route layer
(`src/routes/path_routes.py`) are embedded directly from the source.  The
engine `execute_infinite_scroll_query` lives in the external `api_utils`
package whose source is not part of this repository; it is modelled from the
specification (sections 4.1 to 4.4), with its error messages taken from the
repository's unit tests.

Documents are modelled with string identifiers (MongoDB ObjectIds are
24-character hexadecimal strings, ordered bytewise, which string order
models), a name and a description, the two sortable fields of the Path
domain.  A fallible datastore access is modelled as an `Except String`
value: `.error e` stands for a driver/backend exception with message `e`.
-/

/-- A document of the Path collection: unique identifier plus the two
sortable domain fields of the Path domain. -/
structure PathDoc where
  id : String
  name : String
  description : String
  deriving DecidableEq, Repr

/-- The exceptions of `api_utils.flask_utils.exceptions` visible to the
service layer, plus a constructor for any other (driver/backend) exception. -/
inductive PyErr where
  | httpBadRequest (msg : String)
  | httpForbidden (msg : String)
  | httpNotFound (msg : String)
  | httpInternalServerError (msg : String)
  | otherError (msg : String)
  deriving DecidableEq, Repr

/-- The value returned by the scroll engine:
`\x7bitems, limit, has_more, next_cursor\x7d`. -/
structure ScrollResult where
  items : List PathDoc
  limit : Int
  has_more : Bool
  next_cursor : Option String
  deriving DecidableEq, Repr

deriving instance DecidableEq for Except

/-- Strict lexicographic comparison of `(sort value, identifier)` keys.
When `descFirst` is true the first component is compared in descending
direction; the second component (the identifier tiebreak) is always
ascending, as the spec makes the tiebreak non-configurable. -/
def pairLt {α β : Type} [LinearOrder α] [LinearOrder β] (descFirst : Bool)
    (x y : α × β) : Bool :=
  (if descFirst then decide (y.1 < x.1) else decide (x.1 < y.1))
    || (decide (x.1 = y.1) && decide (x.2 < y.2))

/-- The value of the sort field of a document. Validation restricts
`sort_by` to the allow-list, for the Path domain `name` or `description`. -/
def sortValue (sb : String) (d : PathDoc) : String :=
  if sb == "description" then d.description else d.name

/-- The keyset comparison key of a document: sort-field value, then the
identifier as tiebreak.  Strings compare bytewise, modelled by the
lexicographic order on their character lists. -/
def docKey (sb : String) (d : PathDoc) : List Char × List Char :=
  ((sortValue sb d).data, d.id.data)

/-- Modelled from the spec (section 4.3): the strict total order on
documents used by the engine, `(sortField ascending|descending as
requested, identifier ascending)`. -/
def keyLtB (sb ord : String) (a b : PathDoc) : Bool :=
  pairLt (ord == "desc") (docKey sb a) (docKey sb b)

/-- Case-insensitive literal substring test, lowering both sides. -/
def containsCI (hay needle : String) : Bool :=
  decide (List.IsInfix (needle.data.map Char.toLower) (hay.data.map Char.toLower))

/-- Modelled from the spec (section 4.3): the name filter is a
case-insensitive substring match on the name field, with the filter
characters taken literally. -/
def nameMatches (nameF : Option String) (d : PathDoc) : Bool :=
  match nameF with
  | none => true
  | some f => containsCI d.name f

/-- A hexadecimal digit. -/
def isHexChar (c : Char) : Bool :=
  (decide ('0' ≤ c) && decide (c ≤ '9'))
    || (decide ('a' ≤ c) && decide (c ≤ 'f'))
    || (decide ('A' ≤ c) && decide (c ≤ 'F'))

/-- Structural validity of a MongoDB ObjectId string: exactly 24
hexadecimal characters (`bson.ObjectId.is_valid` on strings). -/
def isValidObjectId (s : String) : Bool :=
  s.length == 24 && s.toList.all isHexChar

/-- Modelled from the spec (section 4.3): sort the collection by the
keyset order.  `insertionSort` with the reflexive closure of `keyLtB`. -/
def sortDocs (sb ord : String) (docs : List PathDoc) : List PathDoc :=
  docs.insertionSort (fun a b => keyLtB sb ord b a = false)

/-- Modelled from the spec (section 4.2): decoding a cursor means looking
up, by identifier, the document the previous page ended at. -/
def resumeDoc (coll : List PathDoc) (after_id : Option String) : Option PathDoc :=
  after_id.bind (fun rid => coll.find? (fun d => d.id == rid))

/-- Modelled from the spec (section 4.3): the keyset continuation
predicate: strictly past the resume point in the requested direction, or
equal sort value with identifier strictly past.  When the resume document
no longer exists the engine degrades gracefully: it treats the scan as
unrestricted rather than erroring. -/
def contPred (sb ord : String) (r? : Option PathDoc) (d : PathDoc) : Bool :=
  match r? with
  | none => true
  | some r => keyLtB sb ord r d

/-- The matching documents of a scan in query order, before any
continuation predicate: the sorted collection restricted to the name
filter. -/
def matchingSorted (coll : List PathDoc) (nameF : Option String)
    (sb ord : String) : List PathDoc :=
  (sortDocs sb ord coll).filter (nameMatches nameF)

/-- Modelled from the spec (sections 4.2 and 4.3): the matching documents
in query order — the collection sorted by the keyset order, restricted to
the name filter and the continuation predicate. -/
def builtList (coll : List PathDoc) (nameF after_id : Option String)
    (sb ord : String) : List PathDoc :=
  (matchingSorted coll nameF sb ord).filter
    (contPred sb ord (resumeDoc coll after_id))

/-- Modelled from the spec (section 4.4): the result assembler.  `fetched`
is the over-fetched batch of at most `n + 1` documents; if exactly `n + 1`
came back there is more data: drop the extra one and point the cursor at
the last kept document. -/
def assemblePage (fetched : List PathDoc) (limit : Int) (n : Nat) : ScrollResult :=
  if fetched.length == n + 1 then
    let items := fetched.take n
    { items := items, limit := limit, has_more := true,
      next_cursor := items.getLast?.map (fun d => d.id) }
  else
    { items := fetched, limit := limit, has_more := false, next_cursor := none }

/-- Modelled from the spec (section 4.4): one page of the scroll over a
concrete collection: over-fetch `limit + 1` documents under the built
filter and order, then assemble. -/
def enginePage (coll : List PathDoc) (nameF after_id : Option String)
    (limit : Int) (sb ord : String) : ScrollResult :=
  assemblePage ((builtList coll nameF after_id sb ord).take (limit.toNat + 1))
    limit limit.toNat

/-- Modelled from the spec (section 4.4): execute the built query against
the datastore.  A backend failure propagates as the raw exception. -/
def runScroll (db : Except String (List PathDoc)) (nameF after_id : Option String)
    (limit : Int) (sb ord : String) : Except PyErr ScrollResult :=
  match db with
  | .error e => .error (.otherError e)
  | .ok coll => .ok (enginePage coll nameF after_id limit sb ord)

/-- Modelled from the spec: `api_utils.mongo_utils.execute_infinite_scroll_query`,
whose source is not part of this repository.  Validation rules and their
order follow section 4.1 (limit bounds, sort-field allow-list, exact sort
order, cursor structure), with the error messages asserted by the
repository's unit tests; only after validation is the datastore touched. -/
def execute_infinite_scroll_query (db : Except String (List PathDoc))
    (nameF after_id : Option String) (limit : Int) (sort_by ord : String)
    (allowed_sort_fields : List String) : Except PyErr ScrollResult :=
  if limit < 1 then .error (.httpBadRequest ("limit must be >= 1"))
  else if 100 < limit then .error (.httpBadRequest ("limit must be <= 100"))
  else if !(allowed_sort_fields.contains sort_by) then
    .error (.httpBadRequest
      ("sort_by must be one of " ++ String.intercalate (", ") allowed_sort_fields))
  else if !(ord == "asc" || ord == "desc") then
    .error (.httpBadRequest ("order must be \x27asc\x27 or \x27desc\x27"))
  else
    match after_id with
    | some s =>
      if !(isValidObjectId s) then
        .error (.httpBadRequest ("after_id must be a valid MongoDB ObjectId"))
      else runScroll db nameF (some s) limit sort_by ord
    | none => runScroll db nameF none limit sort_by ord

/-- `ALLOWED_SORT_FIELDS` of `src/services/path_service.py`. -/
def PathService.ALLOWED_SORT_FIELDS : List String := ["name", "description"]

/-- `PathService._check_permission` of `src/services/path_service.py`: the
body is `pass` — a placeholder that never raises, for any token value and
any operation string. -/
def PathService._check_permission {T : Type} (token : T) (operation : String) :
    Except PyErr Unit :=
  Except.ok ()

/-- `PathService.get_paths` of `src/services/path_service.py`: permission
check, then the scroll engine; `except HTTPBadRequest: raise` re-raises
validation errors unchanged, `except Exception` maps anything else to
`HTTPInternalServerError("Failed to retrieve paths")`. -/
def PathService.get_paths {T B : Type} (token : T) (breadcrumb : B)
    (db : Except String (List PathDoc)) (name after_id : Option String)
    (limit : Int) (sort_by ord : String) : Except PyErr ScrollResult :=
  match (do
      let _ ← PathService._check_permission token ("read")
      execute_infinite_scroll_query db name after_id limit sort_by ord
        PathService.ALLOWED_SORT_FIELDS) with
  | .ok r => .ok r
  | .error (.httpBadRequest m) => .error (.httpBadRequest m)
  | .error _ => .error (.httpInternalServerError ("Failed to retrieve paths"))

/-- `PathService.get_path` of `src/services/path_service.py`: permission
check, fetch by id (`db` models the datastore outcome of
`mongo.get_document`), `HTTPNotFound` when the store yields `None`,
re-raised unchanged; any other exception becomes
`HTTPInternalServerError("Failed to retrieve path <id>")`. -/
def PathService.get_path {T B : Type} (path_id : String) (token : T)
    (breadcrumb : B) (db : Except String (Option PathDoc)) : Except PyErr PathDoc :=
  match (do
      let _ ← PathService._check_permission token ("read")
      (match db with
        | .error e => Except.error (PyErr.otherError e)
        | .ok none =>
          Except.error (PyErr.httpNotFound ("Path " ++ path_id ++ " not found"))
        | .ok (some p) => Except.ok p)) with
  | .ok p => .ok p
  | .error (.httpNotFound m) => .error (.httpNotFound m)
  | .error _ =>
    .error (.httpInternalServerError ("Failed to retrieve path " ++ path_id))

/-- The raw query parameters of a GET /api/path request, each absent or a
raw string. -/
structure RawArgs where
  name : Option String
  after_id : Option String
  limit : Option String
  sort_by : Option String
  order : Option String
  deriving DecidableEq, Repr

/-- Decimal digits to a number, `none` on an empty or non-digit list. -/
def parseDigits (ds : List Char) : Option Nat :=
  if ds.isEmpty then none
  else
    ds.foldl
      (fun acc? c =>
        acc?.bind (fun acc =>
          if c.isDigit then some (acc * 10 + (c.toNat - 48)) else none))
      (some 0)

/-- Python's `int(s)` conversion on a decimal string: an optional sign
followed by at least one digit, `none` when the string does not parse. -/
def parseInt (s : String) : Option Int :=
  match s.data with
  | '-' :: ds => (parseDigits ds).map (fun n => -(n : Int))
  | '+' :: ds => (parseDigits ds).map (fun n => (n : Int))
  | ds => (parseDigits ds).map (fun n => (n : Int))

/-- Flask's `request.args.get(key, default, type=int)` semantics: the
default is returned when the parameter is absent, and also when the raw
value fails integer conversion (Werkzeug swallows the conversion error). -/
def flaskGetInt (raw : Option String) (dflt : Int) : Int :=
  match raw with
  | none => dflt
  | some s =>
    match parseInt s with
    | none => dflt
    | some v => v

/-- The GET /api/path handler of `src/routes/path_routes.py`: extract the
query parameters (limit via `type=int` with default 10, sort_by default
`name`, order default `asc`) and delegate to the service. -/
def PathRoutes.get_paths {T B : Type} (token : T) (breadcrumb : B)
    (db : Except String (List PathDoc)) (args : RawArgs) : Except PyErr ScrollResult :=
  PathService.get_paths token breadcrumb db args.name args.after_id
    (flaskGetInt args.limit 10) (args.sort_by.getD ("name")) (args.order.getD ("asc"))

/-- A client's scroll loop: fetch a page, and while `has_more` holds keep
following `next_cursor` as the next `after_id`, concatenating the items.
`fuel` bounds the number of round trips. -/
def fetchAllPages {T B : Type} (token : T) (breadcrumb : B)
    (db : Except String (List PathDoc)) (name : Option String) (limit : Int)
    (sort_by ord : String) : Nat → Option String → List PathDoc
  | 0, _ => []
  | fuel + 1, after_id =>
    match PathService.get_paths token breadcrumb db name after_id limit sort_by ord with
    | .error _ => []
    | .ok r =>
      if r.has_more then
        match r.next_cursor with
        | some c =>
          r.items ++ fetchAllPages token breadcrumb db name limit sort_by ord fuel (some c)
        | none => r.items
      else r.items

/-- True exactly on an `HTTPForbidden` outcome. -/
def isForbidden {α : Type} : Except PyErr α → Bool
  | .error (.httpForbidden _) => true
  | _ => false

/-! ### Order lemmas for the keyset comparison -/

theorem pairLt_false_iff {α β : Type} [LinearOrder α] [LinearOrder β]
    (x y : α × β) :
    pairLt false x y = true ↔ (x.1 < y.1 ∨ (x.1 = y.1 ∧ x.2 < y.2)) := by
  simp [pairLt]

theorem pairLt_true_iff {α β : Type} [LinearOrder α] [LinearOrder β]
    (x y : α × β) :
    pairLt true x y = true ↔ (y.1 < x.1 ∨ (x.1 = y.1 ∧ x.2 < y.2)) := by
  simp [pairLt]

theorem pairLt_irrefl {α β : Type} [LinearOrder α] [LinearOrder β]
    (d : Bool) (x : α × β) : pairLt d x x = false := by
  cases d <;> simp [pairLt]

theorem pairLt_asymm {α β : Type} [LinearOrder α] [LinearOrder β]
    {d : Bool} {x y : α × β} (h : pairLt d x y = true) : pairLt d y x = false := by
  cases d
  · rw [pairLt_false_iff] at h
    rw [← Bool.not_eq_true, pairLt_false_iff]
    rcases h with h | ⟨h1, h2⟩
    · rintro (h' | ⟨h1', h2'⟩)
      · exact absurd h' (lt_asymm h)
      · exact absurd h (by rw [h1']; exact lt_irrefl _)
    · rintro (h' | ⟨h1', h2'⟩)
      · exact absurd h' (by rw [h1]; exact lt_irrefl _)
      · exact absurd h2' (lt_asymm h2)
  · rw [pairLt_true_iff] at h
    rw [← Bool.not_eq_true, pairLt_true_iff]
    rcases h with h | ⟨h1, h2⟩
    · rintro (h' | ⟨h1', h2'⟩)
      · exact absurd h' (lt_asymm h)
      · exact absurd h (by rw [h1']; exact lt_irrefl _)
    · rintro (h' | ⟨h1', h2'⟩)
      · exact absurd h' (by rw [h1]; exact lt_irrefl _)
      · exact absurd h2' (lt_asymm h2)

theorem pairLt_trans {α β : Type} [LinearOrder α] [LinearOrder β]
    {d : Bool} {x y z : α × β} (hxy : pairLt d x y = true)
    (hyz : pairLt d y z = true) : pairLt d x z = true := by
  cases d
  · rw [pairLt_false_iff] at hxy hyz ⊢
    rcases hxy with h | ⟨h1, h2⟩ <;> rcases hyz with h' | ⟨h1', h2'⟩
    · exact Or.inl (lt_trans h h')
    · exact Or.inl (h1' ▸ h)
    · exact Or.inl (h1 ▸ h')
    · exact Or.inr ⟨h1.trans h1', lt_trans h2 h2'⟩
  · rw [pairLt_true_iff] at hxy hyz ⊢
    rcases hxy with h | ⟨h1, h2⟩ <;> rcases hyz with h' | ⟨h1', h2'⟩
    · exact Or.inl (lt_trans h' h)
    · exact Or.inl (h1' ▸ h)
    · exact Or.inl (h1 ▸ h')
    · exact Or.inr ⟨h1.trans h1', lt_trans h2 h2'⟩

theorem pairLt_conn {α β : Type} [LinearOrder α] [LinearOrder β]
    {d : Bool} {x y : α × β} (hxy : pairLt d x y = false)
    (hyx : pairLt d y x = false) : x = y := by
  have key1 : x.1 = y.1 := by
    cases d
    · rw [← Bool.not_eq_true, pairLt_false_iff, not_or] at hxy hyx
      rcases lt_trichotomy x.1 y.1 with h | h | h
      · exact absurd h hxy.1
      · exact h
      · exact absurd h hyx.1
    · rw [← Bool.not_eq_true, pairLt_true_iff, not_or] at hxy hyx
      rcases lt_trichotomy x.1 y.1 with h | h | h
      · exact absurd h hyx.1
      · exact h
      · exact absurd h hxy.1
  have key2 : x.2 = y.2 := by
    cases d
    · rw [← Bool.not_eq_true, pairLt_false_iff, not_or, not_and] at hxy hyx
      rcases lt_trichotomy x.2 y.2 with h | h | h
      · exact absurd h (hxy.2 key1)
      · exact h
      · exact absurd h (hyx.2 key1.symm)
    · rw [← Bool.not_eq_true, pairLt_true_iff, not_or, not_and] at hxy hyx
      rcases lt_trichotomy x.2 y.2 with h | h | h
      · exact absurd h (hxy.2 key1)
      · exact h
      · exact absurd h (hyx.2 key1.symm)
  exact Prod.ext key1 key2

theorem keyLtB_eq_pairLt (sb ord : String) (a b : PathDoc) :
    keyLtB sb ord a b = pairLt (ord == "desc") (docKey sb a) (docKey sb b) := rfl

theorem keyLtB_irrefl (sb ord : String) (a : PathDoc) :
    keyLtB sb ord a a = false := pairLt_irrefl _ _

theorem keyLtB_asymm {sb ord : String} {a b : PathDoc}
    (h : keyLtB sb ord a b = true) : keyLtB sb ord b a = false := pairLt_asymm h

theorem keyLtB_trans {sb ord : String} {a b c : PathDoc}
    (hab : keyLtB sb ord a b = true) (hbc : keyLtB sb ord b c = true) :
    keyLtB sb ord a c = true := pairLt_trans hab hbc

theorem keyLtB_conn {sb ord : String} {a b : PathDoc}
    (hab : keyLtB sb ord a b = false) (hba : keyLtB sb ord b a = false) :
    docKey sb a = docKey sb b := pairLt_conn hab hba

theorem keyLtB_id_eq_of_not_lt {sb ord : String} {a b : PathDoc}
    (hab : keyLtB sb ord a b = false) (hba : keyLtB sb ord b a = false) :
    a.id = b.id := by
  have h := congrArg Prod.snd (keyLtB_conn hab hba)
  simp only [docKey] at h
  ext1
  exact h

/-! ### Sortedness of the engine's scan order -/

theorem builtList_eq_filter_cont (coll : List PathDoc) (nameF after_id : Option String)
    (sb ord : String) :
    builtList coll nameF after_id sb ord =
      (matchingSorted coll nameF sb ord).filter
        (contPred sb ord (resumeDoc coll after_id)) := rfl

theorem sortDocs_perm (sb ord : String) (l : List PathDoc) :
    List.Perm (sortDocs sb ord l) l :=
  List.perm_insertionSort _ l

theorem sortDocs_sorted (sb ord : String) (l : List PathDoc) :
    (sortDocs sb ord l).Sorted (fun a b => keyLtB sb ord b a = false) := by
  haveI : IsTotal PathDoc (fun a b => keyLtB sb ord b a = false) := by
    constructor
    intro a b
    by_cases h : keyLtB sb ord b a = true
    · exact Or.inr (keyLtB_asymm h)
    · exact Or.inl (by simpa using h)
  haveI : IsTrans PathDoc (fun a b => keyLtB sb ord b a = false) := by
    constructor
    intro a b c hab hbc
    by_contra hca
    have hca' : keyLtB sb ord c a = true := by simpa using hca
    by_cases hab' : keyLtB sb ord a b = true
    · exact absurd (keyLtB_trans hca' hab') (by simpa using hbc)
    · have hkey := keyLtB_conn (by simpa using hab') hab
      have : keyLtB sb ord c b = true := by
        rw [keyLtB_eq_pairLt] at hca' ⊢
        rw [← hkey]
        exact hca'
      exact absurd this (by simpa using hbc)
  exact List.sorted_insertionSort _ l

theorem matchingSorted_sorted (coll : List PathDoc) (nameF : Option String)
    (sb ord : String) :
    (matchingSorted coll nameF sb ord).Sorted (fun a b => keyLtB sb ord b a = false) :=
  (sortDocs_sorted sb ord coll).filter _

theorem matchingSorted_perm (coll : List PathDoc) (nameF : Option String)
    (sb ord : String) :
    List.Perm (matchingSorted coll nameF sb ord) (coll.filter (nameMatches nameF)) :=
  (sortDocs_perm sb ord coll).filter _

theorem matchingSorted_mem (coll : List PathDoc) (nameF : Option String)
    (sb ord : String) (d : PathDoc) :
    d ∈ matchingSorted coll nameF sb ord ↔
      d ∈ coll ∧ nameMatches nameF d = true := by
  unfold matchingSorted sortDocs
  rw [List.mem_filter, List.mem_insertionSort]

theorem matchingSorted_idPairwise {coll : List PathDoc} (nameF : Option String)
    (sb ord : String) (h : coll.Pairwise (fun a b => a.id ≠ b.id)) :
    (matchingSorted coll nameF sb ord).Pairwise (fun a b => a.id ≠ b.id) := by
  have hperm := sortDocs_perm sb ord coll
  have : (sortDocs sb ord coll).Pairwise (fun a b => a.id ≠ b.id) :=
    (hperm.pairwise_iff (fun h' => h'.symm)).mpr h
  exact this.filter _

/-- On a scan with pairwise-distinct identifiers, the sort order is
pairwise strict. -/
theorem matchingSorted_strict {coll : List PathDoc} (nameF : Option String)
    (sb ord : String) (h : coll.Pairwise (fun a b => a.id ≠ b.id)) :
    (matchingSorted coll nameF sb ord).Pairwise
      (fun a b => keyLtB sb ord a b = true) := by
  have h1 := matchingSorted_sorted coll nameF sb ord
  have h2 := matchingSorted_idPairwise nameF sb ord h
  refine (List.Pairwise.and h1 h2).imp ?_
  rintro a b ⟨hle, hne⟩
  by_contra hab
  exact hne (keyLtB_id_eq_of_not_lt (by simpa using hab) hle)

theorem matchingSorted_length_le (coll : List PathDoc) (nameF : Option String)
    (sb ord : String) :
    (matchingSorted coll nameF sb ord).length ≤ coll.length := by
  calc (matchingSorted coll nameF sb ord).length
      = (coll.filter (nameMatches nameF)).length :=
        (matchingSorted_perm coll nameF sb ord).length_eq
    _ ≤ coll.length := List.length_filter_le _ _

/-! ### The continuation predicate selects exactly the remaining suffix -/

/-- In a pairwise strictly ordered scan `xs ++ r :: ys`, filtering by
"strictly past `r`" yields exactly the suffix `ys`: nothing is skipped and
nothing is repeated. -/
theorem filter_keyLt_suffix {sb ord : String} (xs ys : List PathDoc) (r : PathDoc)
    (h : (xs ++ r :: ys).Pairwise (fun a b => keyLtB sb ord a b = true)) :
    (xs ++ r :: ys).filter (fun d => keyLtB sb ord r d) = ys := by
  rw [List.filter_append]
  have hxs : xs.filter (fun d => keyLtB sb ord r d) = [] := by
    rw [List.filter_eq_nil_iff]
    intro x hx
    have hxr : keyLtB sb ord x r = true := by
      have := (List.pairwise_append.mp h).2.2
      exact this x hx r (List.mem_cons_self r ys)
    simp [keyLtB_asymm hxr]
  have hys : (r :: ys).filter (fun d => keyLtB sb ord r d) = ys := by
    rw [List.filter_cons]
    have hcons := (List.pairwise_append.mp h).2.1
    have hry : ∀ y ∈ ys, keyLtB sb ord r y = true :=
      fun y hy => List.rel_of_pairwise_cons hcons hy
    simp only [keyLtB_irrefl, Bool.false_eq_true, if_false]
    exact List.filter_eq_self.mpr hry
  rw [hxs, hys, List.nil_append]

/-- Looking up a member of a collection with pairwise-distinct identifiers
by its identifier finds exactly that member. -/
theorem find?_id_of_mem {coll : List PathDoc}
    (h : coll.Pairwise (fun a b => a.id ≠ b.id)) {r : PathDoc} (hr : r ∈ coll) :
    coll.find? (fun d => d.id == r.id) = some r := by
  induction coll with
  | nil => cases hr
  | cons a t ih =>
    rcases List.mem_cons.mp hr with rfl | hrt
    · simp [List.find?]
    · have hne : a.id ≠ r.id := List.rel_of_pairwise_cons h hrt
      rw [List.find?]
      have : (a.id == r.id) = false := by simpa using hne
      rw [this]
      exact ih (List.Pairwise.of_cons h) hrt

/-! ### Engine equations under validated parameters -/

theorem builtList_none (coll : List PathDoc) (nameF : Option String) (sb ord : String) :
    builtList coll nameF none sb ord = matchingSorted coll nameF sb ord := by
  rw [builtList_eq_filter_cont]
  exact List.filter_eq_self.mpr (fun a _ => rfl)

theorem builtList_deleted (coll : List PathDoc) (nameF : Option String)
    (sb ord : String) {s : String} (h : ∀ d ∈ coll, d.id ≠ s) :
    builtList coll nameF (some s) sb ord = matchingSorted coll nameF sb ord := by
  rw [builtList_eq_filter_cont]
  have hres : resumeDoc coll (some s) = none := by
    unfold resumeDoc
    rw [Option.some_bind]
    exact List.find?_eq_none.mpr (fun x hx => by simpa using h x hx)
  rw [hres]
  exact List.filter_eq_self.mpr (fun a _ => rfl)

theorem builtList_found (coll : List PathDoc) (nameF : Option String)
    (sb ord : String) {r : PathDoc}
    (hid : coll.Pairwise (fun a b => a.id ≠ b.id)) (hr : r ∈ coll) :
    builtList coll nameF (some r.id) sb ord =
      (matchingSorted coll nameF sb ord).filter (fun d => keyLtB sb ord r d) := by
  rw [builtList_eq_filter_cont]
  have hres : resumeDoc coll (some r.id) = some r := by
    unfold resumeDoc
    rw [Option.some_bind]
    exact find?_id_of_mem hid hr
  rw [hres]
  rfl

theorem assemblePage_small {fetched : List PathDoc} {limit : Int} {n : Nat}
    (h : fetched.length ≤ n) :
    assemblePage fetched limit n =
      { items := fetched, limit := limit, has_more := false, next_cursor := none } := by
  unfold assemblePage
  rw [if_neg (by simp; omega)]

theorem assemblePage_full {fetched : List PathDoc} {limit : Int} {n : Nat}
    (h : fetched.length = n + 1) :
    assemblePage fetched limit n =
      { items := fetched.take n, limit := limit, has_more := true,
        next_cursor := (fetched.take n).getLast?.map (fun d => d.id) } := by
  unfold assemblePage
  rw [if_pos (by simp [h])]

theorem execute_eq_runScroll (db : Except String (List PathDoc))
    (nameF after_id : Option String) (limit : Int) (sb ord : String)
    (allowed : List String)
    (h1 : 1 ≤ limit) (h2 : limit ≤ 100) (h3 : allowed.contains sb = true)
    (h4 : ord = "asc" ∨ ord = "desc")
    (h5 : ∀ s, after_id = some s → isValidObjectId s = true) :
    execute_infinite_scroll_query db nameF after_id limit sb ord allowed =
      runScroll db nameF after_id limit sb ord := by
  have hord : (ord == "asc" || ord == "desc") = true := by
    rcases h4 with rfl | rfl <;> rfl
  unfold execute_infinite_scroll_query
  rw [if_neg (by omega), if_neg (by omega), h3, hord]
  simp only [Bool.not_true, Bool.false_eq_true, if_false]
  cases after_id with
  | none => rfl
  | some s => simp only [h5 s rfl, Bool.not_true, Bool.false_eq_true, if_false]

theorem get_paths_classify {T B : Type} (token : T) (bc : B)
    (db : Except String (List PathDoc)) (nameF after_id : Option String)
    (limit : Int) (sb ord : String) :
    PathService.get_paths token bc db nameF after_id limit sb ord =
      match execute_infinite_scroll_query db nameF after_id limit sb ord
          PathService.ALLOWED_SORT_FIELDS with
      | .ok r => .ok r
      | .error (.httpBadRequest m) => .error (.httpBadRequest m)
      | .error _ => .error (.httpInternalServerError ("Failed to retrieve paths")) := rfl

theorem get_paths_ok {T B : Type} (token : T) (bc : B) (coll : List PathDoc)
    (nameF after_id : Option String) (limit : Int) (sb ord : String)
    (h1 : 1 ≤ limit) (h2 : limit ≤ 100)
    (h3 : PathService.ALLOWED_SORT_FIELDS.contains sb = true)
    (h4 : ord = "asc" ∨ ord = "desc")
    (h5 : ∀ s, after_id = some s → isValidObjectId s = true) :
    PathService.get_paths token bc (Except.ok coll) nameF after_id limit sb ord =
      Except.ok (enginePage coll nameF after_id limit sb ord) := by
  rw [get_paths_classify, execute_eq_runScroll _ _ _ _ _ _ _ h1 h2 h3 h4 h5]
  rfl

/-! ### The scroll loop walks the whole scan without gaps or repeats -/

/-- Resuming the loop from the cursor of document `r`, with `ys` the part
of the scan strictly past `r`, yields exactly `ys`. -/
theorem fetchAllPages_suffix {T B : Type} (token : T) (bc : B)
    (coll : List PathDoc) (nameF : Option String) (limit : Int) (sb ord : String)
    (hid : coll.Pairwise (fun a b => a.id ≠ b.id))
    (hval : ∀ d ∈ coll, isValidObjectId d.id = true)
    (h1 : 1 ≤ limit) (h2 : limit ≤ 100)
    (h3 : PathService.ALLOWED_SORT_FIELDS.contains sb = true)
    (h4 : ord = "asc" ∨ ord = "desc") :
    ∀ (fuel : Nat) (xs ys : List PathDoc) (r : PathDoc),
      matchingSorted coll nameF sb ord = xs ++ r :: ys → r ∈ coll →
      ys.length + 1 ≤ fuel →
      fetchAllPages token bc (Except.ok coll) nameF limit sb ord fuel (some r.id) = ys := by
  have hn : 1 ≤ limit.toNat := by omega
  intro fuel
  induction fuel with
  | zero => intro xs ys r _ _ hfuel; omega
  | succ f ih =>
    intro xs ys r hS hr hfuel
    have hpage : PathService.get_paths token bc (Except.ok coll) nameF
        (some r.id) limit sb ord =
        Except.ok (enginePage coll nameF (some r.id) limit sb ord) :=
      get_paths_ok token bc coll nameF (some r.id) limit sb ord h1 h2 h3 h4
        (fun s hs => by cases hs; exact hval r hr)
    have hstrict := matchingSorted_strict nameF sb ord hid
    rw [hS] at hstrict
    have hfilter : builtList coll nameF (some r.id) sb ord = ys := by
      rw [builtList_found coll nameF sb ord hid hr, hS]
      exact filter_keyLt_suffix xs ys r hstrict
    have hengine : enginePage coll nameF (some r.id) limit sb ord =
        assemblePage (ys.take (limit.toNat + 1)) limit limit.toNat := by
      unfold enginePage
      rw [hfilter]
    rcases Nat.lt_or_ge ys.length (limit.toNat + 1) with hlen | hlen
    · have htake : ys.take (limit.toNat + 1) = ys :=
        List.take_of_length_le (by omega)
      have hasm : enginePage coll nameF (some r.id) limit sb ord =
          { items := ys, limit := limit, has_more := false, next_cursor := none } := by
        rw [hengine, htake]
        exact assemblePage_small (by omega)
      simp only [fetchAllPages, hpage, hasm]
      simp
    · have hlentake : (ys.take (limit.toNat + 1)).length = limit.toNat + 1 := by
        rw [List.length_take]
        omega
      have htaketake : (ys.take (limit.toNat + 1)).take limit.toNat =
          ys.take limit.toNat := by
        rw [List.take_take]
        congr 1
        omega
      have hne : ys.take limit.toNat ≠ [] := by
        have : (ys.take limit.toNat).length = limit.toNat := by
          rw [List.length_take]; omega
        intro hnil
        rw [hnil] at this
        simp at this
        omega
      have hlast : (ys.take limit.toNat).getLast? =
          some ((ys.take limit.toNat).getLast hne) :=
        List.getLast?_eq_getLast _ hne
      have hasm : enginePage coll nameF (some r.id) limit sb ord =
          { items := ys.take limit.toNat, limit := limit, has_more := true,
            next_cursor := some ((ys.take limit.toNat).getLast hne).id } := by
        rw [hengine, assemblePage_full hlentake, htaketake, hlast]
        rfl
      have hmemS : (ys.take limit.toNat).getLast hne ∈ coll := by
        have hmem1 : (ys.take limit.toNat).getLast hne ∈ ys.take limit.toNat :=
          List.getLast_mem hne
        have hmem2 : (ys.take limit.toNat).getLast hne ∈
            matchingSorted coll nameF sb ord := by
          rw [hS]
          exact List.mem_append_right xs
            (List.mem_cons_of_mem r (List.mem_of_mem_take hmem1))
        exact ((matchingSorted_mem coll nameF sb ord _).mp hmem2).1
      have hsplit : matchingSorted coll nameF sb ord =
          (xs ++ r :: (ys.take limit.toNat).dropLast) ++
            ((ys.take limit.toNat).getLast hne) :: ys.drop limit.toNat := by
        rw [hS]
        conv_lhs => rw [← List.take_append_drop limit.toNat ys,
          ← List.dropLast_append_getLast hne]
        simp [List.append_assoc, List.cons_append]
      have hrec := ih (xs ++ r :: (ys.take limit.toNat).dropLast)
        (ys.drop limit.toNat) ((ys.take limit.toNat).getLast hne) hsplit hmemS
        (by rw [List.length_drop]; omega)
      simp only [fetchAllPages, hpage, hasm, if_true]
      rw [hrec, List.take_append_drop]

/-- Starting the loop with no cursor and enough fuel yields the whole
scan. -/
theorem fetchAllPages_none {T B : Type} (token : T) (bc : B)
    (coll : List PathDoc) (nameF : Option String) (limit : Int) (sb ord : String)
    (hid : coll.Pairwise (fun a b => a.id ≠ b.id))
    (hval : ∀ d ∈ coll, isValidObjectId d.id = true)
    (h1 : 1 ≤ limit) (h2 : limit ≤ 100)
    (h3 : PathService.ALLOWED_SORT_FIELDS.contains sb = true)
    (h4 : ord = "asc" ∨ ord = "desc") :
    ∀ (fuel : Nat),
      (matchingSorted coll nameF sb ord).length + 1 ≤ fuel →
      fetchAllPages token bc (Except.ok coll) nameF limit sb ord fuel none =
        matchingSorted coll nameF sb ord := by
  have hn : 1 ≤ limit.toNat := by omega
  intro fuel hfuel
  obtain ⟨f, rfl⟩ : ∃ f, fuel = f + 1 := ⟨fuel - 1, by omega⟩
  set S := matchingSorted coll nameF sb ord with hSdef
  have hpage : PathService.get_paths token bc (Except.ok coll) nameF
      none limit sb ord =
      Except.ok (enginePage coll nameF none limit sb ord) :=
    get_paths_ok token bc coll nameF none limit sb ord h1 h2 h3 h4
      (fun s hs => by cases hs)
  have hengine : enginePage coll nameF none limit sb ord =
      assemblePage (S.take (limit.toNat + 1)) limit limit.toNat := by
    unfold enginePage
    rw [builtList_none]
  rcases Nat.lt_or_ge S.length (limit.toNat + 1) with hlen | hlen
  · have htake : S.take (limit.toNat + 1) = S :=
      List.take_of_length_le (by omega)
    have hasm : enginePage coll nameF none limit sb ord =
        { items := S, limit := limit, has_more := false, next_cursor := none } := by
      rw [hengine, htake]
      exact assemblePage_small (by omega)
    simp only [fetchAllPages, hpage, hasm]
    simp
  · have hlentake : (S.take (limit.toNat + 1)).length = limit.toNat + 1 := by
      rw [List.length_take]
      omega
    have htaketake : (S.take (limit.toNat + 1)).take limit.toNat =
        S.take limit.toNat := by
      rw [List.take_take]
      congr 1
      omega
    have hne : S.take limit.toNat ≠ [] := by
      have hl : (S.take limit.toNat).length = limit.toNat := by
        rw [List.length_take]; omega
      intro hnil
      rw [hnil] at hl
      simp at hl
      omega
    have hlast : (S.take limit.toNat).getLast? =
        some ((S.take limit.toNat).getLast hne) :=
      List.getLast?_eq_getLast _ hne
    have hasm : enginePage coll nameF none limit sb ord =
        { items := S.take limit.toNat, limit := limit, has_more := true,
          next_cursor := some ((S.take limit.toNat).getLast hne).id } := by
      rw [hengine, assemblePage_full hlentake, htaketake, hlast]
      rfl
    have hmemS : (S.take limit.toNat).getLast hne ∈ coll := by
      have hmem1 : (S.take limit.toNat).getLast hne ∈ S.take limit.toNat :=
        List.getLast_mem hne
      exact ((matchingSorted_mem coll nameF sb ord _).mp
        (List.mem_of_mem_take hmem1)).1
    have hsplit : S = (S.take limit.toNat).dropLast ++
        ((S.take limit.toNat).getLast hne) :: S.drop limit.toNat := by
      conv_lhs => rw [← List.take_append_drop limit.toNat S,
        ← List.dropLast_append_getLast hne]
      simp [List.append_assoc, List.cons_append]
    have hrec := fetchAllPages_suffix token bc coll nameF limit sb ord hid hval
      h1 h2 h3 h4 f ((S.take limit.toNat).dropLast) (S.drop limit.toNat)
      ((S.take limit.toNat).getLast hne) (by rw [← hSdef]; exact hsplit) hmemS
      (by rw [List.length_drop]; omega)
    simp only [fetchAllPages, hpage, hasm, if_true]
    rw [hrec, List.take_append_drop]

/-! ### Claim theorems -/

/-- C4: a structurally invalid after_id fails with a client-input error
before any query executes (the datastore outcome, even a failing one, is
never consulted), while a structurally valid after_id whose document no
longer exists in the collection yields an ordinary page, not an error. -/
theorem C4_cursor_validity :
    (∀ (db : Except String (List PathDoc)) (nameF : Option String) (s : String)
        (limit : Int) (sb ord : String) (allowed : List String),
        1 ≤ limit → limit ≤ 100 → allowed.contains sb = true →
        (ord = "asc" ∨ ord = "desc") → isValidObjectId s = false →
        execute_infinite_scroll_query db nameF (some s) limit sb ord allowed =
          Except.error (PyErr.httpBadRequest ("after_id must be a valid MongoDB ObjectId")))
    ∧ (∀ (coll : List PathDoc) (nameF : Option String) (s : String)
        (limit : Int) (sb ord : String) (allowed : List String),
        1 ≤ limit → limit ≤ 100 → allowed.contains sb = true →
        (ord = "asc" ∨ ord = "desc") → isValidObjectId s = true →
        (∀ d ∈ coll, d.id ≠ s) →
        execute_infinite_scroll_query (Except.ok coll) nameF (some s) limit sb ord allowed =
          Except.ok (assemblePage
            ((matchingSorted coll nameF sb ord).take (limit.toNat + 1))
            limit limit.toNat)) := by
  constructor
  · intro db nameF s limit sb ord allowed h1 h2 h3 h4 hbad
    have hord : (ord == "asc" || ord == "desc") = true := by
      rcases h4 with rfl | rfl <;> rfl
    unfold execute_infinite_scroll_query
    rw [if_neg (by omega), if_neg (by omega), h3, hord]
    simp only [Bool.not_true, Bool.false_eq_true, if_false, hbad, Bool.not_false, if_true]
  · intro coll nameF s limit sb ord allowed h1 h2 h3 h4 hgood hmiss
    rw [execute_eq_runScroll _ _ _ _ _ _ _ h1 h2 h3 h4
      (fun s' hs' => by cases hs'; exact hgood)]
    show Except.ok (enginePage coll nameF (some s) limit sb ord) = _
    unfold enginePage
    rw [builtList_deleted coll nameF sb ord hmiss]

/-- C4 witness: invalid cursor "invalid" fails even with a broken backend;
valid-but-deleted cursor yields an ordinary page over a one-document
collection. -/
theorem C4_cursor_validity_witness :
    ((1 : Int) ≤ 10 ∧ (10 : Int) ≤ 100
      ∧ (["name", "description"] : List String).contains ("name") = true
      ∧ isValidObjectId ("invalid") = false
      ∧ isValidObjectId ("507f1f77bcf86cd799439099") = true
      ∧ (∀ d ∈ [PathDoc.mk ("507f1f77bcf86cd799439011") ("alpha") ("x")],
          d.id ≠ "507f1f77bcf86cd799439099"))
    ∧ execute_infinite_scroll_query (Except.error ("backend down")) none
        (some ("invalid")) 10 ("name") ("asc") ["name", "description"] =
        Except.error (PyErr.httpBadRequest ("after_id must be a valid MongoDB ObjectId"))
    ∧ execute_infinite_scroll_query
        (Except.ok [PathDoc.mk ("507f1f77bcf86cd799439011") ("alpha") ("x")]) none
        (some ("507f1f77bcf86cd799439099")) 10 ("name") ("asc") ["name", "description"] =
        Except.ok (assemblePage
          ((matchingSorted [PathDoc.mk ("507f1f77bcf86cd799439011") ("alpha") ("x")]
            none ("name") ("asc")).take (Int.toNat 10 + 1)) 10 (Int.toNat 10)) :=
  ⟨by decide,
    C4_cursor_validity.1 (Except.error ("backend down")) none ("invalid") 10 ("name")
      ("asc") ["name", "description"] (by decide) (by decide) (by decide)
      (Or.inl rfl) (by decide),
    C4_cursor_validity.2 [PathDoc.mk ("507f1f77bcf86cd799439011") ("alpha") ("x")]
      none ("507f1f77bcf86cd799439099") 10 ("name") ("asc") ["name", "description"]
      (by decide) (by decide) (by decide) (Or.inl rfl) (by decide) (by decide)⟩

/-- C5: limit below 1 or above 100 fails with a client-input error whose
message names the violated bound; a limit in [1,100] does not fail; an
absent limit parameter defaults to 10 at the route layer. -/
theorem C5_limit_validation :
    (∀ (db : Except String (List PathDoc)) (nameF after_id : Option String)
        (limit : Int) (sb ord : String) (allowed : List String), limit < 1 →
        execute_infinite_scroll_query db nameF after_id limit sb ord allowed =
          Except.error (PyErr.httpBadRequest ("limit must be >= 1")))
    ∧ (∀ (db : Except String (List PathDoc)) (nameF after_id : Option String)
        (limit : Int) (sb ord : String) (allowed : List String), 100 < limit →
        execute_infinite_scroll_query db nameF after_id limit sb ord allowed =
          Except.error (PyErr.httpBadRequest ("limit must be <= 100")))
    ∧ (∀ (coll : List PathDoc) (nameF after_id : Option String)
        (limit : Int) (sb ord : String),
        1 ≤ limit → limit ≤ 100 →
        PathService.ALLOWED_SORT_FIELDS.contains sb = true →
        (ord = "asc" ∨ ord = "desc") →
        (∀ s, after_id = some s → isValidObjectId s = true) →
        execute_infinite_scroll_query (Except.ok coll) nameF after_id limit sb ord
            PathService.ALLOWED_SORT_FIELDS =
          Except.ok (enginePage coll nameF after_id limit sb ord))
    ∧ (∀ (T B : Type) (token : T) (bc : B) (db : Except String (List PathDoc))
        (nm aft sb? ord? : Option String),
        PathRoutes.get_paths token bc db
            { name := nm, after_id := aft, limit := none,
              sort_by := sb?, order := ord? } =
          PathService.get_paths token bc db nm aft 10
            (sb?.getD ("name")) (ord?.getD ("asc"))) := by
  refine ⟨?_, ?_, ?_, ?_⟩
  · intro db nameF after_id limit sb ord allowed h
    unfold execute_infinite_scroll_query
    rw [if_pos h]
  · intro db nameF after_id limit sb ord allowed h
    unfold execute_infinite_scroll_query
    rw [if_neg (by omega), if_pos h]
  · intro coll nameF after_id limit sb ord h1 h2 h3 h4 h5
    rw [execute_eq_runScroll _ _ _ _ _ _ _ h1 h2 h3 h4 h5]
    rfl
  · intro T B token bc db nm aft sb? ord?
    rfl

/-- C5 witness: limit 0 and 101 fail with the bound-naming messages,
limit 10 succeeds, and an absent limit defaults to 10. -/
theorem C5_limit_validation_witness :
    ((0 : Int) < 1 ∧ (100 : Int) < 101 ∧ (1 : Int) ≤ 10 ∧ (10 : Int) ≤ 100
      ∧ PathService.ALLOWED_SORT_FIELDS.contains ("name") = true)
    ∧ execute_infinite_scroll_query (Except.ok ([] : List PathDoc)) none none 0
        ("name") ("asc") PathService.ALLOWED_SORT_FIELDS =
        Except.error (PyErr.httpBadRequest ("limit must be >= 1"))
    ∧ execute_infinite_scroll_query (Except.ok ([] : List PathDoc)) none none 101
        ("name") ("asc") PathService.ALLOWED_SORT_FIELDS =
        Except.error (PyErr.httpBadRequest ("limit must be <= 100"))
    ∧ execute_infinite_scroll_query (Except.ok ([] : List PathDoc)) none none 10
        ("name") ("asc") PathService.ALLOWED_SORT_FIELDS =
        Except.ok (enginePage ([] : List PathDoc) none none 10 ("name") ("asc"))
    ∧ PathRoutes.get_paths () () (Except.ok ([] : List PathDoc))
        { name := none, after_id := none, limit := none,
          sort_by := none, order := none } =
        PathService.get_paths () () (Except.ok ([] : List PathDoc)) none none 10
          ((none : Option String).getD ("name")) ((none : Option String).getD ("asc")) :=
  ⟨by decide,
    C5_limit_validation.1 (Except.ok []) none none 0 ("name") ("asc")
      PathService.ALLOWED_SORT_FIELDS (by decide),
    C5_limit_validation.2.1 (Except.ok []) none none 101 ("name") ("asc")
      PathService.ALLOWED_SORT_FIELDS (by decide),
    C5_limit_validation.2.2.1 [] none none 10 ("name") ("asc") (by decide)
      (by decide) (by decide) (Or.inl rfl) (fun s hs => by cases hs),
    C5_limit_validation.2.2.2 Unit Unit () () (Except.ok []) none none none none⟩

/-- C6 counterexample: against the claim, a non-integer raw limit value is
NOT rejected: the route silently substitutes the default page size 10 and
the request succeeds. -/
theorem C6_counterexample_nonint_limit :
    PathRoutes.get_paths () () (Except.ok ([] : List PathDoc))
        { name := none, after_id := none, limit := some ("abc"),
          sort_by := none, order := none } =
      Except.ok (ScrollResult.mk [] 10 false none) := by
  decide

/-- C6 amended: a raw limit value that does not parse as an integer is
silently replaced by the default 10 (Werkzeug's `type=int` conversion
failure falls back to the default); no client-input error is raised for
it. -/
theorem C6_nonint_limit_defaults {T B : Type} (token : T) (bc : B)
    (db : Except String (List PathDoc)) (nm aft sb? ord? : Option String)
    (s : String) (h : parseInt s = none) :
    PathRoutes.get_paths token bc db
        { name := nm, after_id := aft, limit := some s,
          sort_by := sb?, order := ord? } =
      PathService.get_paths token bc db nm aft 10
        (sb?.getD ("name")) (ord?.getD ("asc")) := by
  unfold PathRoutes.get_paths flaskGetInt
  simp only [h]

/-- C6 amended witness: at the concrete raw limit "abc". -/
theorem C6_nonint_limit_defaults_witness :
    parseInt ("abc") = none
    ∧ PathRoutes.get_paths () () (Except.ok ([] : List PathDoc))
        { name := none, after_id := none, limit := some ("abc"),
          sort_by := none, order := none } =
      PathService.get_paths () () (Except.ok ([] : List PathDoc)) none none 10
        ((none : Option String).getD ("name")) ((none : Option String).getD ("asc")) :=
  ⟨by decide,
    C6_nonint_limit_defaults () () (Except.ok []) none none none none ("abc")
      (by decide)⟩

/-- C7: a sort_by outside the allow-list fails with a client-input error
naming the allowed set; an order other than exactly "asc" or "desc"
(case-sensitively) fails; sort_by defaults to "name" and order to "asc"
at the route layer when absent. -/
theorem C7_sort_validation :
    (∀ (db : Except String (List PathDoc)) (nameF after_id : Option String)
        (limit : Int) (sb ord : String),
        1 ≤ limit → limit ≤ 100 →
        PathService.ALLOWED_SORT_FIELDS.contains sb = false →
        execute_infinite_scroll_query db nameF after_id limit sb ord
            PathService.ALLOWED_SORT_FIELDS =
          Except.error (PyErr.httpBadRequest ("sort_by must be one of "
            ++ String.intercalate (", ") PathService.ALLOWED_SORT_FIELDS)))
    ∧ (∀ (db : Except String (List PathDoc)) (nameF after_id : Option String)
        (limit : Int) (sb ord : String),
        1 ≤ limit → limit ≤ 100 →
        PathService.ALLOWED_SORT_FIELDS.contains sb = true →
        (ord == "asc" || ord == "desc") = false →
        execute_infinite_scroll_query db nameF after_id limit sb ord
            PathService.ALLOWED_SORT_FIELDS =
          Except.error (PyErr.httpBadRequest
            ("order must be \x27asc\x27 or \x27desc\x27")))
    ∧ (∀ (T B : Type) (token : T) (bc : B) (db : Except String (List PathDoc))
        (nm aft lim? : Option String),
        PathRoutes.get_paths token bc db
            { name := nm, after_id := aft, limit := lim?,
              sort_by := none, order := none } =
          PathService.get_paths token bc db nm aft (flaskGetInt lim? 10)
            ("name") ("asc")) := by
  refine ⟨?_, ?_, ?_⟩
  · intro db nameF after_id limit sb ord h1 h2 hsb
    unfold execute_infinite_scroll_query
    rw [if_neg (by omega), if_neg (by omega), hsb]
    rfl
  · intro db nameF after_id limit sb ord h1 h2 hsb hord
    unfold execute_infinite_scroll_query
    rw [if_neg (by omega), if_neg (by omega), hsb, hord]
    rfl
  · intro T B token bc db nm aft lim?
    rfl

/-- C7 witness: sort_by "invalid_field" fails naming the allowed set, and
orders "ASC" and "upward" fail, while the route defaults apply. -/
theorem C7_sort_validation_witness :
    (PathService.ALLOWED_SORT_FIELDS.contains ("invalid_field") = false
      ∧ PathService.ALLOWED_SORT_FIELDS.contains ("name") = true
      ∧ (("ASC" : String) == "asc" || ("ASC" : String) == "desc") = false
      ∧ (("upward" : String) == "asc" || ("upward" : String) == "desc") = false)
    ∧ execute_infinite_scroll_query (Except.ok ([] : List PathDoc)) none none 10
        ("invalid_field") ("asc") PathService.ALLOWED_SORT_FIELDS =
        Except.error (PyErr.httpBadRequest ("sort_by must be one of "
          ++ String.intercalate (", ") PathService.ALLOWED_SORT_FIELDS))
    ∧ execute_infinite_scroll_query (Except.ok ([] : List PathDoc)) none none 10
        ("name") ("ASC") PathService.ALLOWED_SORT_FIELDS =
        Except.error (PyErr.httpBadRequest
          ("order must be \x27asc\x27 or \x27desc\x27"))
    ∧ execute_infinite_scroll_query (Except.ok ([] : List PathDoc)) none none 10
        ("name") ("upward") PathService.ALLOWED_SORT_FIELDS =
        Except.error (PyErr.httpBadRequest
          ("order must be \x27asc\x27 or \x27desc\x27"))
    ∧ PathRoutes.get_paths () () (Except.ok ([] : List PathDoc))
        { name := none, after_id := none, limit := none,
          sort_by := none, order := none } =
        PathService.get_paths () () (Except.ok ([] : List PathDoc)) none none
          (flaskGetInt none 10) ("name") ("asc") :=
  ⟨by decide,
    C7_sort_validation.1 (Except.ok []) none none 10 ("invalid_field") ("asc")
      (by decide) (by decide) (by decide),
    C7_sort_validation.2.1 (Except.ok []) none none 10 ("name") ("ASC")
      (by decide) (by decide) (by decide) (by decide),
    C7_sort_validation.2.1 (Except.ok []) none none 10 ("name") ("upward")
      (by decide) (by decide) (by decide) (by decide),
    C7_sort_validation.2.2 Unit Unit () () (Except.ok []) none none none⟩

/-- C8: an HTTPBadRequest from the engine propagates through
PathService.get_paths unchanged, while a backend failure is replaced by an
HTTPInternalServerError carrying only the fixed generic message
"Failed to retrieve paths", independent of the underlying cause. -/
theorem C8_error_classification :
    (∀ (T B : Type) (token : T) (bc : B) (db : Except String (List PathDoc))
        (nameF after_id : Option String) (limit : Int) (sb ord : String)
        (m : String),
        execute_infinite_scroll_query db nameF after_id limit sb ord
            PathService.ALLOWED_SORT_FIELDS =
          Except.error (PyErr.httpBadRequest m) →
        PathService.get_paths token bc db nameF after_id limit sb ord =
          Except.error (PyErr.httpBadRequest m))
    ∧ (∀ (T B : Type) (token : T) (bc : B) (e : String)
        (nameF after_id : Option String) (limit : Int) (sb ord : String),
        1 ≤ limit → limit ≤ 100 →
        PathService.ALLOWED_SORT_FIELDS.contains sb = true →
        (ord = "asc" ∨ ord = "desc") →
        (∀ s, after_id = some s → isValidObjectId s = true) →
        PathService.get_paths token bc (Except.error e) nameF after_id limit sb ord =
          Except.error (PyErr.httpInternalServerError ("Failed to retrieve paths"))) := by
  constructor
  · intro T B token bc db nameF after_id limit sb ord m h
    rw [get_paths_classify, h]
  · intro T B token bc e nameF after_id limit sb ord h1 h2 h3 h4 h5
    rw [get_paths_classify, execute_eq_runScroll _ _ _ _ _ _ _ h1 h2 h3 h4 h5]
    rfl

/-- C8 witness: a bad limit propagates its exact message; a broken backend
yields the generic message whatever the driver error was. -/
theorem C8_error_classification_witness :
    (execute_infinite_scroll_query (Except.ok ([] : List PathDoc)) none none 0
        ("name") ("asc") PathService.ALLOWED_SORT_FIELDS =
        Except.error (PyErr.httpBadRequest ("limit must be >= 1"))
      ∧ (1 : Int) ≤ 10 ∧ (10 : Int) ≤ 100)
    ∧ PathService.get_paths () () (Except.ok ([] : List PathDoc)) none none 0
        ("name") ("asc") =
        Except.error (PyErr.httpBadRequest ("limit must be >= 1"))
    ∧ PathService.get_paths () () (Except.error ("Database error")) none none 10
        ("name") ("asc") =
        Except.error (PyErr.httpInternalServerError ("Failed to retrieve paths"))
    ∧ PathService.get_paths () () (Except.error ("some other driver failure")) none
        none 10 ("name") ("asc") =
        Except.error (PyErr.httpInternalServerError ("Failed to retrieve paths")) :=
  ⟨by decide,
    C8_error_classification.1 Unit Unit () () (Except.ok []) none none 0 ("name")
      ("asc") ("limit must be >= 1") (by decide),
    C8_error_classification.2 Unit Unit () () ("Database error") none none 10
      ("name") ("asc") (by decide) (by decide) (by decide) (Or.inl rfl)
      (fun s hs => by cases hs),
    C8_error_classification.2 Unit Unit () () ("some other driver failure") none
      none 10 ("name") ("asc") (by decide) (by decide) (by decide) (Or.inl rfl)
      (fun s hs => by cases hs)⟩

/-- C9: the permission check is a placeholder that always returns
successfully, so neither the list operation nor the single-document read
can ever fail with an authorization (HTTPForbidden) error. -/
theorem C9_permission_placeholder :
    (∀ (T : Type) (token : T) (operation : String),
        PathService._check_permission token operation = Except.ok ())
    ∧ (∀ (T B : Type) (token : T) (bc : B) (db : Except String (List PathDoc))
        (nameF after_id : Option String) (limit : Int) (sb ord : String),
        isForbidden (PathService.get_paths token bc db nameF after_id limit sb ord)
          = false)
    ∧ (∀ (T B : Type) (token : T) (bc : B) (path_id : String)
        (db : Except String (Option PathDoc)),
        isForbidden (PathService.get_path path_id token bc db) = false) := by
  refine ⟨fun T token operation => rfl, ?_, ?_⟩
  · intro T B token bc db nameF after_id limit sb ord
    rw [get_paths_classify]
    cases hexec : execute_infinite_scroll_query db nameF after_id limit sb ord
        PathService.ALLOWED_SORT_FIELDS with
    | ok r => rfl
    | error e => cases e <;> rfl
  · intro T B token bc path_id db
    cases db with
    | error e => rfl
    | ok o => cases o <;> rfl

/-- C10: the single-document read returns exactly the document the
datastore yields when it is non-None, raises HTTPNotFound with a message
containing the id exactly when the datastore yields None, and maps a
datastore failure to HTTPInternalServerError, never returning an empty
result. -/
theorem C10_get_path_semantics :
    (∀ (T B : Type) (token : T) (bc : B) (path_id : String) (d : PathDoc),
        PathService.get_path path_id token bc (Except.ok (some d)) = Except.ok d)
    ∧ (∀ (T B : Type) (token : T) (bc : B) (path_id : String),
        PathService.get_path path_id token bc (Except.ok none) =
          Except.error (PyErr.httpNotFound ("Path " ++ path_id ++ " not found")))
    ∧ (∀ (T B : Type) (token : T) (bc : B) (path_id : String) (e : String),
        PathService.get_path path_id token bc (Except.error e) =
          Except.error (PyErr.httpInternalServerError
            ("Failed to retrieve path " ++ path_id))) :=
  ⟨fun _ _ _ _ _ _ => rfl, fun _ _ _ _ _ => rfl, fun _ _ _ _ _ _ => rfl⟩

/-- C1: over a static collection with pairwise-distinct identifiers,
fetching the first page and repeatedly following next_cursor as after_id
until has_more is false yields every document matching the filter exactly
once (the loop result equals the scan `matchingSorted`, which is a
permutation of the filtered collection), in the order (sortField in the
requested direction, identifier ascending), with no document skipped or
repeated even when documents share a sortField value. -/
theorem C1_scroll_no_gap {T B : Type} (token : T) (bc : B)
    (coll : List PathDoc) (nameF : Option String) (limit : Int) (sb ord : String)
    (hid : coll.Pairwise (fun a b => a.id ≠ b.id))
    (hval : ∀ d ∈ coll, isValidObjectId d.id = true)
    (h1 : 1 ≤ limit) (h2 : limit ≤ 100)
    (h3 : PathService.ALLOWED_SORT_FIELDS.contains sb = true)
    (h4 : ord = "asc" ∨ ord = "desc") :
    fetchAllPages token bc (Except.ok coll) nameF limit sb ord
        (coll.length + 1) none = matchingSorted coll nameF sb ord
      ∧ List.Perm (matchingSorted coll nameF sb ord)
          (coll.filter (nameMatches nameF))
      ∧ (matchingSorted coll nameF sb ord).Pairwise
          (fun a b => keyLtB sb ord a b = true) := by
  refine ⟨?_, matchingSorted_perm coll nameF sb ord,
    matchingSorted_strict nameF sb ord hid⟩
  exact fetchAllPages_none token bc coll nameF limit sb ord hid hval h1 h2 h3 h4
    (coll.length + 1)
    (by have := matchingSorted_length_le coll nameF sb ord; omega)

/-- C1 witness: three documents, two of which share the sort value "beta",
scrolled with limit 1, so the loop takes three pages and the identifier
tiebreak decides the duplicate group. -/
theorem C1_scroll_no_gap_witness :
    (([PathDoc.mk ("507f1f77bcf86cd799439012") ("beta") ("d2"),
       PathDoc.mk ("507f1f77bcf86cd799439011") ("beta") ("d1"),
       PathDoc.mk ("507f1f77bcf86cd799439013") ("alpha") ("d3")] :
        List PathDoc).Pairwise (fun a b => a.id ≠ b.id)
      ∧ (∀ d ∈ ([PathDoc.mk ("507f1f77bcf86cd799439012") ("beta") ("d2"),
          PathDoc.mk ("507f1f77bcf86cd799439011") ("beta") ("d1"),
          PathDoc.mk ("507f1f77bcf86cd799439013") ("alpha") ("d3")] :
            List PathDoc), isValidObjectId d.id = true)
      ∧ (1 : Int) ≤ 1 ∧ (1 : Int) ≤ 100
      ∧ PathService.ALLOWED_SORT_FIELDS.contains ("name") = true)
    ∧ (fetchAllPages () () (Except.ok
          [PathDoc.mk ("507f1f77bcf86cd799439012") ("beta") ("d2"),
           PathDoc.mk ("507f1f77bcf86cd799439011") ("beta") ("d1"),
           PathDoc.mk ("507f1f77bcf86cd799439013") ("alpha") ("d3")]) none 1
          ("name") ("asc")
          (([PathDoc.mk ("507f1f77bcf86cd799439012") ("beta") ("d2"),
             PathDoc.mk ("507f1f77bcf86cd799439011") ("beta") ("d1"),
             PathDoc.mk ("507f1f77bcf86cd799439013") ("alpha") ("d3")] :
              List PathDoc).length + 1) none =
          matchingSorted
            [PathDoc.mk ("507f1f77bcf86cd799439012") ("beta") ("d2"),
             PathDoc.mk ("507f1f77bcf86cd799439011") ("beta") ("d1"),
             PathDoc.mk ("507f1f77bcf86cd799439013") ("alpha") ("d3")] none
            ("name") ("asc")
        ∧ List.Perm
            (matchingSorted
              [PathDoc.mk ("507f1f77bcf86cd799439012") ("beta") ("d2"),
               PathDoc.mk ("507f1f77bcf86cd799439011") ("beta") ("d1"),
               PathDoc.mk ("507f1f77bcf86cd799439013") ("alpha") ("d3")] none
              ("name") ("asc"))
            (([PathDoc.mk ("507f1f77bcf86cd799439012") ("beta") ("d2"),
               PathDoc.mk ("507f1f77bcf86cd799439011") ("beta") ("d1"),
               PathDoc.mk ("507f1f77bcf86cd799439013") ("alpha") ("d3")] :
                List PathDoc).filter (nameMatches none))
        ∧ (matchingSorted
            [PathDoc.mk ("507f1f77bcf86cd799439012") ("beta") ("d2"),
             PathDoc.mk ("507f1f77bcf86cd799439011") ("beta") ("d1"),
             PathDoc.mk ("507f1f77bcf86cd799439013") ("alpha") ("d3")] none
            ("name") ("asc")).Pairwise
            (fun a b => keyLtB ("name") ("asc") a b = true)) :=
  ⟨by decide,
    C1_scroll_no_gap () ()
      [PathDoc.mk ("507f1f77bcf86cd799439012") ("beta") ("d2"),
       PathDoc.mk ("507f1f77bcf86cd799439011") ("beta") ("d1"),
       PathDoc.mk ("507f1f77bcf86cd799439013") ("alpha") ("d3")] none 1
      ("name") ("asc") (by decide) (by decide) (by decide) (by decide)
      (by decide) (Or.inl rfl)⟩

/-- C2: under validated parameters one page fetch retrieves at most
limit + 1 documents under the built filter and order; fewer than limit + 1
retrieved means has_more = false, next_cursor = null and all retrieved
documents returned; exactly limit + 1 means has_more = true, the extra
document dropped and next_cursor encoding the last kept document; items
never exceeds limit, and has_more holds exactly when more matching
documents exist beyond the returned page. -/
theorem C2_page_assembly (coll : List PathDoc) (nameF after_id : Option String)
    (limit : Int) (sb ord : String)
    (h1 : 1 ≤ limit) (h2 : limit ≤ 100)
    (h3 : PathService.ALLOWED_SORT_FIELDS.contains sb = true)
    (h4 : ord = "asc" ∨ ord = "desc")
    (h5 : ∀ s, after_id = some s → isValidObjectId s = true) :
    execute_infinite_scroll_query (Except.ok coll) nameF after_id limit sb ord
        PathService.ALLOWED_SORT_FIELDS =
      Except.ok (assemblePage ((builtList coll nameF after_id sb ord).take
        (limit.toNat + 1)) limit limit.toNat)
    ∧ ((builtList coll nameF after_id sb ord).take (limit.toNat + 1)).length
        ≤ limit.toNat + 1
    ∧ (((builtList coll nameF after_id sb ord).take (limit.toNat + 1)).length
          < limit.toNat + 1 →
        enginePage coll nameF after_id limit sb ord =
          ScrollResult.mk ((builtList coll nameF after_id sb ord).take
            (limit.toNat + 1)) limit false none)
    ∧ (((builtList coll nameF after_id sb ord).take (limit.toNat + 1)).length
          = limit.toNat + 1 →
        enginePage coll nameF after_id limit sb ord =
          ScrollResult.mk ((builtList coll nameF after_id sb ord).take limit.toNat)
            limit true
            (((builtList coll nameF after_id sb ord).take limit.toNat).getLast?.map
              (fun d => d.id)))
    ∧ (enginePage coll nameF after_id limit sb ord).items.length ≤ limit.toNat
    ∧ ((enginePage coll nameF after_id limit sb ord).has_more = true ↔
        (enginePage coll nameF after_id limit sb ord).items.length <
          (builtList coll nameF after_id sb ord).length) := by
  have hexec : execute_infinite_scroll_query (Except.ok coll) nameF after_id limit
      sb ord PathService.ALLOWED_SORT_FIELDS =
      Except.ok (enginePage coll nameF after_id limit sb ord) := by
    rw [execute_eq_runScroll _ _ _ _ _ _ _ h1 h2 h3 h4 h5]
    rfl
  refine ⟨hexec, List.length_take_le _ _, ?_, ?_, ?_, ?_⟩
  · intro h
    unfold enginePage
    rw [assemblePage_small (by omega)]
  · intro h
    have hmin : min limit.toNat (limit.toNat + 1) = limit.toNat := by omega
    unfold enginePage
    rw [assemblePage_full h, List.take_take, hmin]
  · rcases Nat.lt_or_ge ((builtList coll nameF after_id sb ord).take
        (limit.toNat + 1)).length (limit.toNat + 1) with hl | hl
    · unfold enginePage
      rw [assemblePage_small (by omega)]
      show ((builtList coll nameF after_id sb ord).take
        (limit.toNat + 1)).length ≤ limit.toNat
      omega
    · have hfl : ((builtList coll nameF after_id sb ord).take
          (limit.toNat + 1)).length = limit.toNat + 1 :=
        le_antisymm (List.length_take_le _ _) hl
      unfold enginePage
      rw [assemblePage_full hfl]
      show (((builtList coll nameF after_id sb ord).take
        (limit.toNat + 1)).take limit.toNat).length ≤ limit.toNat
      rw [List.length_take]
      omega
  · rcases Nat.lt_or_ge (builtList coll nameF after_id sb ord).length
        (limit.toNat + 1) with hl | hl
    · have htk : (builtList coll nameF after_id sb ord).take (limit.toNat + 1) =
          builtList coll nameF after_id sb ord :=
        List.take_of_length_le (by omega)
      unfold enginePage
      rw [htk, assemblePage_small (by omega)]
      show false = true ↔ (builtList coll nameF after_id sb ord).length <
        (builtList coll nameF after_id sb ord).length
      simp
    · have hfl : ((builtList coll nameF after_id sb ord).take
          (limit.toNat + 1)).length = limit.toNat + 1 := by
        rw [List.length_take]
        omega
      unfold enginePage
      rw [assemblePage_full hfl]
      show true = true ↔ (((builtList coll nameF after_id sb ord).take
        (limit.toNat + 1)).take limit.toNat).length <
        (builtList coll nameF after_id sb ord).length
      rw [List.take_take, List.length_take]
      constructor
      · intro _
        omega
      · intro _
        rfl

/-- C2 witness: three documents, limit 2, first page: over-fetch sees all
three, keeps two, has_more is true and the cursor encodes the second
document. -/
theorem C2_page_assembly_witness :
    ((1 : Int) ≤ 2 ∧ (2 : Int) ≤ 100
      ∧ PathService.ALLOWED_SORT_FIELDS.contains ("name") = true)
    ∧ (execute_infinite_scroll_query (Except.ok
          [PathDoc.mk ("507f1f77bcf86cd799439011") ("alpha") ("x"),
           PathDoc.mk ("507f1f77bcf86cd799439012") ("beta") ("y"),
           PathDoc.mk ("507f1f77bcf86cd799439013") ("gamma") ("z")]) none none 2
          ("name") ("asc") PathService.ALLOWED_SORT_FIELDS =
        Except.ok (assemblePage
          ((builtList [PathDoc.mk ("507f1f77bcf86cd799439011") ("alpha") ("x"),
            PathDoc.mk ("507f1f77bcf86cd799439012") ("beta") ("y"),
            PathDoc.mk ("507f1f77bcf86cd799439013") ("gamma") ("z")] none none
            ("name") ("asc")).take (Int.toNat 2 + 1)) 2 (Int.toNat 2)))
    ∧ (enginePage [PathDoc.mk ("507f1f77bcf86cd799439011") ("alpha") ("x"),
        PathDoc.mk ("507f1f77bcf86cd799439012") ("beta") ("y"),
        PathDoc.mk ("507f1f77bcf86cd799439013") ("gamma") ("z")] none none 2
        ("name") ("asc")).items.length ≤ Int.toNat 2
    ∧ ((enginePage [PathDoc.mk ("507f1f77bcf86cd799439011") ("alpha") ("x"),
        PathDoc.mk ("507f1f77bcf86cd799439012") ("beta") ("y"),
        PathDoc.mk ("507f1f77bcf86cd799439013") ("gamma") ("z")] none none 2
        ("name") ("asc")).has_more = true ↔
        (enginePage [PathDoc.mk ("507f1f77bcf86cd799439011") ("alpha") ("x"),
          PathDoc.mk ("507f1f77bcf86cd799439012") ("beta") ("y"),
          PathDoc.mk ("507f1f77bcf86cd799439013") ("gamma") ("z")] none none 2
          ("name") ("asc")).items.length <
        (builtList [PathDoc.mk ("507f1f77bcf86cd799439011") ("alpha") ("x"),
          PathDoc.mk ("507f1f77bcf86cd799439012") ("beta") ("y"),
          PathDoc.mk ("507f1f77bcf86cd799439013") ("gamma") ("z")] none none
          ("name") ("asc")).length) :=
  ⟨by decide,
    (C2_page_assembly [PathDoc.mk ("507f1f77bcf86cd799439011") ("alpha") ("x"),
      PathDoc.mk ("507f1f77bcf86cd799439012") ("beta") ("y"),
      PathDoc.mk ("507f1f77bcf86cd799439013") ("gamma") ("z")] none none 2
      ("name") ("asc") (by decide) (by decide) (by decide) (Or.inl rfl)
      (fun s hs => by cases hs)).1,
    (C2_page_assembly [PathDoc.mk ("507f1f77bcf86cd799439011") ("alpha") ("x"),
      PathDoc.mk ("507f1f77bcf86cd799439012") ("beta") ("y"),
      PathDoc.mk ("507f1f77bcf86cd799439013") ("gamma") ("z")] none none 2
      ("name") ("asc") (by decide) (by decide) (by decide) (Or.inl rfl)
      (fun s hs => by cases hs)).2.2.2.2.1,
    (C2_page_assembly [PathDoc.mk ("507f1f77bcf86cd799439011") ("alpha") ("x"),
      PathDoc.mk ("507f1f77bcf86cd799439012") ("beta") ("y"),
      PathDoc.mk ("507f1f77bcf86cd799439013") ("gamma") ("z")] none none 2
      ("name") ("asc") (by decide) (by decide) (by decide) (Or.inl rfl)
      (fun s hs => by cases hs)).2.2.2.2.2⟩

/-- C3: with a non-empty name filter and every match fitting on the page,
the page contains exactly the documents whose name contains the filter
string as a case-insensitive literal substring — no scoring, no
tokenization. -/
theorem C3_name_filter_membership (coll : List PathDoc) (f : String)
    (limit : Int) (sb ord : String)
    (h1 : 1 ≤ limit) (h2 : limit ≤ 100)
    (h3 : PathService.ALLOWED_SORT_FIELDS.contains sb = true)
    (h4 : ord = "asc" ∨ ord = "desc")
    (hfit : (matchingSorted coll (some f) sb ord).length ≤ limit.toNat) :
    execute_infinite_scroll_query (Except.ok coll) (some f) none limit sb ord
        PathService.ALLOWED_SORT_FIELDS =
      Except.ok (enginePage coll (some f) none limit sb ord)
    ∧ ∀ d : PathDoc, d ∈ (enginePage coll (some f) none limit sb ord).items ↔
        (d ∈ coll ∧ containsCI d.name f = true) := by
  constructor
  · rw [execute_eq_runScroll _ _ _ _ _ _ _ h1 h2 h3 h4 (fun s hs => by cases hs)]
    rfl
  · intro d
    have hitems : (enginePage coll (some f) none limit sb ord).items =
        matchingSorted coll (some f) sb ord := by
      unfold enginePage
      rw [builtList_none, List.take_of_length_le (by omega),
        assemblePage_small hfit]
    rw [hitems, matchingSorted_mem]
    exact Iff.rfl

/-- C3 witness: the spec's concrete scenario: filter "al" against alpha,
beta, gamma returns exactly alpha (matching case-insensitively against
"Alpha" as well). -/
theorem C3_name_filter_membership_witness :
    ((1 : Int) ≤ 2 ∧ (2 : Int) ≤ 100
      ∧ PathService.ALLOWED_SORT_FIELDS.contains ("name") = true
      ∧ (matchingSorted [PathDoc.mk ("507f1f77bcf86cd799439011") ("Alpha") ("x"),
          PathDoc.mk ("507f1f77bcf86cd799439012") ("beta") ("y"),
          PathDoc.mk ("507f1f77bcf86cd799439013") ("gamma") ("z")] (some ("al"))
          ("name") ("asc")).length ≤ Int.toNat 2)
    ∧ (∀ d : PathDoc,
        d ∈ (enginePage [PathDoc.mk ("507f1f77bcf86cd799439011") ("Alpha") ("x"),
          PathDoc.mk ("507f1f77bcf86cd799439012") ("beta") ("y"),
          PathDoc.mk ("507f1f77bcf86cd799439013") ("gamma") ("z")] (some ("al"))
          none 2 ("name") ("asc")).items ↔
        (d ∈ [PathDoc.mk ("507f1f77bcf86cd799439011") ("Alpha") ("x"),
          PathDoc.mk ("507f1f77bcf86cd799439012") ("beta") ("y"),
          PathDoc.mk ("507f1f77bcf86cd799439013") ("gamma") ("z")]
          ∧ containsCI d.name ("al") = true))
    ∧ (enginePage [PathDoc.mk ("507f1f77bcf86cd799439011") ("Alpha") ("x"),
        PathDoc.mk ("507f1f77bcf86cd799439012") ("beta") ("y"),
        PathDoc.mk ("507f1f77bcf86cd799439013") ("gamma") ("z")] (some ("al"))
        none 2 ("name") ("asc")).items =
      [PathDoc.mk ("507f1f77bcf86cd799439011") ("Alpha") ("x")] :=
  ⟨by decide,
    (C3_name_filter_membership
      [PathDoc.mk ("507f1f77bcf86cd799439011") ("Alpha") ("x"),
       PathDoc.mk ("507f1f77bcf86cd799439012") ("beta") ("y"),
       PathDoc.mk ("507f1f77bcf86cd799439013") ("gamma") ("z")] ("al") 2
      ("name") ("asc") (by decide) (by decide) (by decide) (Or.inl rfl)
      (by decide)).2,
    by decide⟩
